import Mathlib

/-!
Shallow embedding of the TICS Telegram bot (src/index.js) for checking the
natural-language specification against the code.

Modelling conventions:
* JavaScript numbers are modelled as exact rationals; the special values
  `null` and `NaN` that flow through the ticker store get their own
  constructors (`JsVal.null`, `JsVal.nan`).  IEEE-754 rounding of ordinary
  arithmetic is not modelled; `Number.prototype.toFixed(4)` is modelled as
  exact decimal rounding (round half away from zero towards larger n, per the
  ECMAScript ToFixed algorithm) of the rational value.
* The coinstore REST fallback fetchCoinstoreREST is defined in index.js and
  catches its own errors, resolving with a ticker object or null; its outcome
  is network nondeterminism and is passed in as a `RestEnv` argument
  (`none` = the fetch failed / returned no usable object).
* The lbank fallback is different: index.js line 624 calls fetchLBankREST,
  an identifier defined nowhere in the module (only older, unimported
  revisions in the repository define it; the fetchLBankPuppeteer of line 418
  is never called), so evaluating that call throws
  ReferenceError: fetchLBankREST is not defined, the async getExchangeData
  rejects, and the awaiting getCombinedData (line 649, no try/catch) rejects
  with the same error before reaching any aggregation code.  This is
  modelled exactly: the lbank stale branch of getExchangeData is the error
  value `lbankRefErr`, and getCombinedData propagates it.
* The mutable global exchangeData object is threaded explicitly as a `Store`
  value; functions that mutate it return the new store.
* Exceptions are modelled with `Except` / `Option`.
-/

namespace TICS

/-- A JavaScript numeric-ish value as it occurs in the ticker store:
`null` (initial value of the fields), `NaN` (result of a failed parseFloat),
or a finite number modelled as an exact rational. -/
inductive JsVal where
  | null
  | nan
  | num (q : ℚ)
deriving DecidableEq, Repr

/-- JavaScript truthiness of a `JsVal`: null, NaN and 0 are falsy. -/
def truthy : JsVal → Bool
  | .null => false
  | .nan => false
  | .num q => q != 0

/-- JavaScript `isNaN` on a `JsVal` (note `isNaN(null)` is `false` in JS,
since `null` coerces to `0`). -/
def isNaNJ : JsVal → Bool
  | .nan => true
  | _ => false

/-- JavaScript ToNumber coercion: `null` coerces to `0`, NaN has no rational
value (`none`). -/
def toNumber : JsVal → Option ℚ
  | .null => some 0
  | .nan => none
  | .num q => some q

/-- The rational value of a `JsVal` under ToNumber, with NaN mapped to 0
(used only where NaN has already been excluded). -/
def toNumberD (v : JsVal) : ℚ := (toNumber v).getD 0

/-- JavaScript `>` on numeric-ish values: any comparison involving NaN is
false. -/
def jsGt (a b : JsVal) : Bool :=
  match toNumber a, toNumber b with
  | some x, some y => x > y
  | _, _ => false

/-- JavaScript `>=` on numeric-ish values (`null >= 0` is true, `NaN >= 0`
is false). -/
def jsGe (a b : JsVal) : Bool :=
  match toNumber a, toNumber b with
  | some x, some y => x ≥ y
  | _, _ => false

/-- JavaScript `+` restricted to the numeric-ish values that occur here:
NaN is absorbing, null coerces to 0. -/
def jsAdd (a b : JsVal) : JsVal :=
  match toNumber a, toNumber b with
  | some x, some y => .num (x + y)
  | _, _ => .nan

/-- JavaScript `*` on numeric-ish values. -/
def jsMul (a b : JsVal) : JsVal :=
  match toNumber a, toNumber b with
  | some x, some y => .num (x * y)
  | _, _ => .nan

/-- JavaScript `/` on numeric-ish values.  Division by zero yields NaN here;
on the verified code paths the divisor is checked to be positive before
dividing, so the IEEE infinities never arise. -/
def jsDiv (a b : JsVal) : JsVal :=
  match toNumber a, toNumber b with
  | some x, some y => if y = 0 then .nan else .num (x / y)
  | _, _ => .nan

/-- ECMAScript `toFixed(4)` on an exact rational: the integer n minimising
the distance of n / 10^4 to the value, ties resolved to the larger n. -/
def toFixed4 (q : ℚ) : ℚ := (⌊q * 10000 + 1/2⌋ : ℚ) / 10000

/-- `toFixed(4)` lifted to `JsVal` (NaN renders as the string "NaN", kept
here as NaN; the null case cannot reach a toFixed call on the verified
paths). -/
def toFixed4J : JsVal → JsVal
  | .num q => .num (toFixed4 q)
  | .nan => .nan
  | .null => .null

/-- One exchange's entry of the global exchangeData object
(src/index.js lines 23-27). -/
structure Snapshot where
  price : JsVal
  volume : JsVal
  high : JsVal
  low : JsVal
  timestamp : ℤ
  connected : Bool
deriving DecidableEq, Repr

/-- The initial snapshot every exchange starts with. -/
def initialSnapshot : Snapshot :=
  { price := .null, volume := .null, high := .null, low := .null
    timestamp := 0, connected := false }

/-- The three exchanges of src/index.js. -/
inductive Exchange where
  | mexc
  | lbank
  | coinstore
deriving DecidableEq, Repr

/-- The global exchangeData object (src/index.js lines 23-27). -/
structure Store where
  mexc : Snapshot
  lbank : Snapshot
  coinstore : Snapshot
deriving DecidableEq, Repr

def Store.get (st : Store) : Exchange → Snapshot
  | .mexc => st.mexc
  | .lbank => st.lbank
  | .coinstore => st.coinstore

def Store.set (st : Store) : Exchange → Snapshot → Store
  | .mexc, s => { st with mexc := s }
  | .lbank, s => { st with lbank := s }
  | .coinstore, s => { st with coinstore := s }

/-- The snapshot fetchMexcData writes on a successful MEXC response
(src/index.js lines 295-305): every field is the raw parseFloat of the
corresponding ticker field, with no NaN guard (a ticker with a missing
high/low field yields parseFloat(undefined) = NaN). -/
def mexcSnapshotOfTicker (last volume high low : JsVal) (now : ℤ) : Snapshot :=
  { price := last, volume := volume, high := high, low := low
    timestamp := now, connected := true }

/-- The LBank WebSocket tick handler (src/index.js lines 364-386), taking the
already-parseFloat-ed tick fields: if the price is a positive non-NaN number
and the volume a non-negative non-NaN number, the snapshot is overwritten,
substituting the price for a NaN high or low; otherwise the previous snapshot
is only marked disconnected. -/
def processLBankTick (price volume high low : JsVal) (prev : Snapshot) (now : ℤ) :
    Snapshot :=
  if !isNaNJ price && jsGt price (.num 0) && !isNaNJ volume && jsGe volume (.num 0) then
    { price := price, volume := volume
      high := if !isNaNJ high then high else price
      low := if !isNaNJ low then low else price
      timestamp := now, connected := true }
  else
    { prev with connected := false }

/-- The object shape a successful REST fallback fetch resolves with
(fetchCoinstoreREST, src/index.js lines 589-597, and the fetchLBankPuppeteer
shape of lines 494-502 that the lbank call site consumes). -/
structure RestData where
  price : JsVal
  volume : JsVal
  high : JsVal
  low : JsVal
  timestamp : ℤ
deriving DecidableEq, Repr

/-- The outcome of the one-shot coinstore REST fallback fetch
(fetchCoinstoreREST, which index.js defines and which catches its own
errors, resolving with the ticker object or null), supplied as an input
(network nondeterminism); `none` models a fetch that failed or returned no
usable object.  There is no lbank field: the lbank fallback call site
references the undefined fetchLBankREST and always throws instead of
fetching (see getExchangeData). -/
structure RestEnv where
  coinstore : Option RestData
deriving DecidableEq, Repr

/-- The spread { ...restData, connected: false } written to the store on a
successful coinstore REST fallback (src/index.js line 636). -/
def snapOfRest (rd : RestData) : Snapshot :=
  { price := rd.price, volume := rd.volume, high := rd.high, low := rd.low
    timestamp := rd.timestamp, connected := false }

/-- The line-616 fast-path condition of getExchangeData: the stored snapshot
is connected, has a truthy positive price, and is younger than 30s. -/
def wsUsable (d : Snapshot) (now : ℤ) : Bool :=
  d.connected && truthy d.price && jsGt d.price (.num 0)
    && decide (now - d.timestamp < 30000)

/-- The exception the lbank stale path raises: line 624 evaluates
fetchLBankREST(), an identifier defined nowhere in index.js, so the call
throws and lines 625-631 (the lbank caching code) are unreachable. -/
def lbankRefErr : String := "ReferenceError: fetchLBankREST is not defined"

/-- getExchangeData (src/index.js lines 612-644): return the stored snapshot
if it passes the line-616 fast path; otherwise the lbank branch throws the
ReferenceError from the undefined fetchLBankREST (line 624), the coinstore
branch attempts the REST fallback, caching a successful positive-price
result in the store with connected = false, and mexc (and a failed
coinstore fallback) resolves with null (`none`).  The pair is
(resolved value or thrown error, store after the call). -/
def getExchangeData (ex : Exchange) (st : Store) (rest : RestEnv) (now : ℤ) :
    Except String (Option Snapshot) × Store :=
  if wsUsable (st.get ex) now then
    (.ok (some (st.get ex)), st)
  else
    match ex with
    | .lbank => (.error lbankRefErr, st)
    | .coinstore =>
      match rest.coinstore with
      | some rd =>
        if jsGt rd.price (.num 0) then
          (.ok (some (snapOfRest rd)), st.set .coinstore (snapOfRest rd))
        else (.ok none, st)
      | none => (.ok none, st)
    | .mexc => (.ok none, st)

/-- Line 647: the mexc snapshot is taken directly from the store whenever its
price is truthy and positive, with no connectivity or freshness check. -/
def mexcCandidate (st : Store) : Option Snapshot :=
  if truthy st.mexc.price && jsGt st.mexc.price (.num 0) then some st.mexc else none

/-- Lines 650 and 653: keep a getExchangeData result only if its price is
truthy and positive. -/
def validOf : Option Snapshot → Option Snapshot
  | some d => if truthy d.price && jsGt d.price (.num 0) then some d else none
  | none => none

/-- The filter predicate of line 655: truthy price and volume >= 0
(note `null >= 0` is true in JavaScript, `NaN >= 0` is false). -/
def usableFilter (d : Snapshot) : Bool :=
  truthy d.price && jsGe d.volume (.num 0)

/-- The value the line-649 await resolves with on the runs where
getExchangeData('lbank') does not throw, i.e. exactly when the fast path
held; the `none` of the other case never reaches line 650 (the call threw)
and is used only in statements guarded by the live check. -/
def lbankData (st : Store) (now : ℤ) : Option Snapshot :=
  if wsUsable st.lbank now then some st.lbank else none

/-- The value getExchangeData('coinstore') resolves with (it never throws:
fetchCoinstoreREST catches its own errors and resolves with null on
failure); proven to agree with getExchangeData by
getExchangeData_coinstore_spec. -/
def coinstoreData (st : Store) (rest : RestEnv) (now : ℤ) : Option Snapshot :=
  if wsUsable st.coinstore now then some st.coinstore
  else
    match rest.coinstore with
    | some rd => if jsGt rd.price (.num 0) then some (snapOfRest rd) else none
    | none => none

/-- The store after the getExchangeData('coinstore') call (line 636 caches a
successful positive-price fallback); proven to agree with getExchangeData
by getExchangeData_coinstore_spec. -/
def coinstoreStore (st : Store) (rest : RestEnv) (now : ℤ) : Store :=
  if wsUsable st.coinstore now then st
  else
    match rest.coinstore with
    | some rd =>
      if jsGt rd.price (.num 0) then st.set .coinstore (snapOfRest rd) else st
    | none => st

/-- The availableExchanges array of line 655 as computed on the executions
that reach it.  Line 655 executes only when the lbank fast path held
(otherwise the ReferenceError of line 624 already aborted getCombinedData),
and on those runs lbankData st now = some st.lbank and the store passed to
the coinstore call is still st, so this list is exactly the array the code
builds; every theorem that relies on it carries the live-lbank
hypothesis. -/
def availableExchanges (st : Store) (rest : RestEnv) (now : ℤ) : List Snapshot :=
  ([mexcCandidate st, validOf (lbankData st now),
    validOf (coinstoreData st rest now)].filterMap id).filter usableFilter

/-- totalVolume accumulation of lines 669-683. -/
def sumVolume (l : List Snapshot) : JsVal :=
  l.foldl (fun acc d => jsAdd acc d.volume) (.num 0)

/-- weightedPriceSum accumulation of lines 669-683. -/
def sumWeighted (l : List Snapshot) : JsVal :=
  l.foldl (fun acc d => jsAdd acc (jsMul d.price d.volume)) (.num 0)

/-- highSum accumulation of lines 669-683. -/
def sumHigh (l : List Snapshot) : JsVal :=
  l.foldl (fun acc d => jsAdd acc d.high) (.num 0)

/-- lowSum accumulation of lines 669-683. -/
def sumLow (l : List Snapshot) : JsVal :=
  l.foldl (fun acc d => jsAdd acc d.low) (.num 0)

/-- latestTimestamp accumulation of lines 673-683 (initial value 0). -/
def maxTimestamp (l : List Snapshot) : ℤ :=
  l.foldl (fun acc d => if d.timestamp > acc then d.timestamp else acc) 0

/-- The record returned by the two-or-more-exchanges branch of
getCombinedData (lines 689-702).  The price/high/low fields hold the numeric
value of the toFixed(4) strings the code produces; the per-exchange
breakdown price fields are `none` where the code produces the string
'N/A'. -/
structure CombinedQuote where
  price : JsVal
  volume : JsVal
  high : JsVal
  low : JsVal
  mexcPrice : Option JsVal
  lbankPrice : Option JsVal
  coinstorePrice : Option JsVal
  mexcVolume : JsVal
  lbankVolume : JsVal
  coinstoreVolume : JsVal
  timestamp : ℤ
  source : String
deriving DecidableEq, Repr

/-- A getCombinedData result: either the spread of a single snapshot plus a
source label (line 666) or the combined record (lines 689-702); the two
branches return JavaScript objects of different shapes. -/
inductive PriceResult where
  | single (snap : Snapshot) (source : String)
  | combined (q : CombinedQuote)
deriving DecidableEq, Repr

/-- The breakdown field of line 694 etc.: price.toFixed(4) when the candidate
is present with truthy price, the string 'N/A' (here `none`) otherwise. -/
def breakdownPrice : Option Snapshot → Option JsVal
  | some d => if truthy d.price then some (toFixed4J d.price) else none
  | none => none

/-- The breakdown field of line 697 etc.: the candidate's volume or 0 when
absent or falsy. -/
def breakdownVolume : Option Snapshot → JsVal
  | some d => if truthy d.volume then d.volume else .num 0
  | none => .num 0

/-- The combined record construction of lines 669-702. -/
def mkCombined (l : List Snapshot) (m lb cs : Option Snapshot) : CombinedQuote :=
  let totalVolume := sumVolume l
  let weightedPrice :=
    if jsGt totalVolume (.num 0) then jsDiv (sumWeighted l) totalVolume
    else (l.headD initialSnapshot).price
  { price := toFixed4J weightedPrice
    volume := totalVolume
    high := toFixed4J (jsDiv (sumHigh l) (.num l.length))
    low := toFixed4J (jsDiv (sumLow l) (.num l.length))
    mexcPrice := breakdownPrice m
    lbankPrice := breakdownPrice lb
    coinstorePrice := breakdownPrice cs
    mexcVolume := breakdownVolume m
    lbankVolume := breakdownVolume lb
    coinstoreVolume := breakdownVolume cs
    timestamp := maxTimestamp l
    source := "Combined" }

/-- The source label of the single-exchange branch (lines 662-665): the first
of mexcData, validLbankData, validCoinstoreData that is present, in that
order, regardless of which of them survived the volume filter. -/
def singleSourceName (m lb cs : Option Snapshot) : String :=
  if m.isSome then "MEXC only"
  else if lb.isSome then "LBank only"
  else if cs.isSome then "CoinStore only"
  else ""

/-- The branch structure of getCombinedData (lines 657-702) applied to the
collected candidates: zero usable snapshots throw the no-data error, exactly
one returns it spread with a source label, two or more return the combined
record. -/
def combineAvailable (m lb cs : Option Snapshot) (st2 : Store) :
    Except String PriceResult × Store :=
  let available := ([m, lb, cs].filterMap id).filter usableFilter
  match available with
  | [] => (.error "No valid data available from any exchange", st2)
  | [d] => (.ok (.single d (singleSourceName m lb cs)), st2)
  | l => (.ok (.combined (mkCombined l m lb cs)), st2)

/-- getCombinedData (src/index.js lines 646-703): compute the mexc candidate
(line 647), await getExchangeData('lbank') (line 649) — a thrown error
(the ReferenceError of the stale-lbank path) rejects the whole call here,
before the coinstore fetch, the filter or any arithmetic — then await
getExchangeData('coinstore') (line 652, which never throws) and branch on
the filtered availableExchanges array.  The pair is (result or thrown
error, store after the call). -/
def getCombinedData (st : Store) (rest : RestEnv) (now : ℤ) :
    Except String PriceResult × Store :=
  let mexcData := mexcCandidate st
  let p1 := getExchangeData .lbank st rest now
  match p1.1 with
  | .error e => (.error e, p1.2)
  | .ok lb =>
    let p2 := getExchangeData .coinstore p1.2 rest now
    match p2.1 with
    | .error e => (.error e, p2.2)
    | .ok cs => combineAvailable mexcData (validOf lb) (validOf cs) p2.2

/-- Statement helper: the composite price field of a getCombinedData result
(null for the error cases). -/
def resultPrice : Except String PriceResult → JsVal
  | .ok (.single d _) => d.price
  | .ok (.combined q) => q.price
  | .error _ => .null

/-- Statement helper: the composite high field of a getCombinedData result. -/
def resultHigh : Except String PriceResult → JsVal
  | .ok (.single d _) => d.high
  | .ok (.combined q) => q.high
  | .error _ => .null

/-- Statement helper: the composite low field of a getCombinedData result. -/
def resultLow : Except String PriceResult → JsVal
  | .ok (.single d _) => d.low
  | .ok (.combined q) => q.low
  | .error _ => .null

/-- The rational value of a snapshot's price under ToNumber. -/
def priceOf (d : Snapshot) : ℚ := toNumberD d.price

/-- The rational value of a snapshot's volume under ToNumber (null counts
as 0, exactly as JavaScript's += coercion does). -/
def volOf (d : Snapshot) : ℚ := toNumberD d.volume

/-- The rational value of a snapshot's high under ToNumber. -/
def highOf (d : Snapshot) : ℚ := toNumberD d.high

/-- The rational value of a snapshot's low under ToNumber. -/
def lowOf (d : Snapshot) : ℚ := toNumberD d.low

/-- Mathematical total volume Σ volume of a snapshot list. -/
def sumVolQ (l : List Snapshot) : ℚ := (l.map volOf).sum

/-- Mathematical Σ (price · volume) of a snapshot list. -/
def sumPVQ (l : List Snapshot) : ℚ := (l.map fun d => priceOf d * volOf d).sum

/-- Mathematical Σ high of a snapshot list. -/
def sumHighQ (l : List Snapshot) : ℚ := (l.map highOf).sum

/-- Mathematical Σ low of a snapshot list. -/
def sumLowQ (l : List Snapshot) : ℚ := (l.map lowOf).sum

/-- A JavaScript value handed to weiToTics as tx.value: undefined/null/number
(possibly NaN) /string, or an arbitrary object whose toString returns the
given string or throws (`none`). -/
inductive WeiInput where
  | undef
  | null
  | num (q : ℚ)
  | nan
  | str (s : String)
  | obj (toStr : Option String)
deriving DecidableEq, Repr

/-- JavaScript falsiness of a WeiInput (undefined, null, NaN, 0 and the empty
string are falsy; every object is truthy). -/
def weiFalsy : WeiInput → Bool
  | .undef => true
  | .null => true
  | .nan => true
  | .num q => q == 0
  | .str s => s == ""
  | .obj _ => false

/-- Number.prototype.toString, modelled for what weiToTics inspects: an
integer of magnitude below 10^21 renders as its plain decimal digit string;
every other finite number renders in decimal-point or exponential notation,
i.e. to a string containing a character ('.', '+', '-') that is not a
hexadecimal digit, so that the subsequent BigInt('0x' + s) throws exactly as
it does in JavaScript.  A representative such rendering (num/den) is used
for those cases; its exact spelling is never relied upon beyond containing
the non-hex '/' character. -/
def renderNumber (q : ℚ) : String :=
  if q.den = 1 ∧ q.num.natAbs < 10 ^ 21 then toString q.num
  else toString q.num ++ "/" ++ toString q.den

/-- The weiValue.toString() call of line 82; `none` models a thrown
exception (possible for an object whose toString throws). -/
def jsToStringW : WeiInput → Option String
  | .undef => some "undefined"
  | .null => some "null"
  | .num q => some (renderNumber q)
  | .nan => some "NaN"
  | .str s => some s
  | .obj t => t

/-- The value of one hexadecimal digit as BigInt accepts them (0-9, a-f,
A-F, via the lookup table below); `none` for every other character. -/
def hexDigitTable : List (Char × ℕ) :=
  [('0', 0), ('1', 1), ('2', 2), ('3', 3), ('4', 4),
   ('5', 5), ('6', 6), ('7', 7), ('8', 8), ('9', 9),
   ('a', 10), ('b', 11), ('c', 12), ('d', 13), ('e', 14), ('f', 15),
   ('A', 10), ('B', 11), ('C', 12), ('D', 13), ('E', 14), ('F', 15)]

def hexDigitVal (c : Char) : Option ℕ :=
  (hexDigitTable.find? (fun p => p.1 == c)).map (fun p => p.2)

def parseHexDigits (cs : List Char) : Option ℕ :=
  cs.foldl
    (fun acc c =>
      match acc, hexDigitVal c with
      | some a, some d => some (16 * a + d)
      | _, _ => none)
    (some 0)

/-- The hexadecimal digit sequence BigInt sees after the line-82 coercion
hexValue = s.startsWith('0x') ? s : '0x' + s: when the string already starts
with "0x" the digits are the rest of it, otherwise the whole string stands
after the prepended prefix. -/
def hexDigitsAfterPrefix (s : String) : List Char :=
  match s.data with
  | '0' :: 'x' :: t => t
  | l => l

/-- The try-block of weiToTics (src/index.js lines 81-88): coerce the input
to a string, prepend '0x' unless already present, parse the digit sequence
as a hexadecimal BigInt and divide by 10^18.  `none` models any exception
thrown inside the block: a toString that throws, or the SyntaxError BigInt
raises on an empty or invalid digit sequence.  (JavaScript converts the
BigInt and the divisor to doubles before dividing, rounding values above
2^53; the division is modelled exactly over the rationals.  The whitespace
trimming of the ECMAScript StringToBigInt algorithm is not modelled; no
whitespace occurs in the verified inputs.) -/
def weiToTicsAux (w : WeiInput) : Option ℚ := do
  let s ← jsToStringW w
  let digits := hexDigitsAfterPrefix s
  if digits.isEmpty then none
  else do
    let n ← parseHexDigits digits
    pure ((n : ℚ) / 10 ^ 18)

/-- weiToTics (src/index.js lines 78-89): 0 for falsy input and the strings
'0x0' and '0'; otherwise the try-block result, with any thrown exception
caught and turned into 0. -/
def weiToTics (w : WeiInput) : ℚ :=
  if weiFalsy w ∨ w = .str "0x0" ∨ w = .str "0" then 0
  else (weiToTicsAux w).getD 0

/-- src/index.js line 11. -/
def CEX_THRESHOLD : ℚ := 20

/-- src/index.js line 12. -/
def WHALE_THRESHOLD : ℚ := 100

/-- The ASCII letter case pairs (upper, lower): the fragment of JavaScript
toLowerCase / toUpperCase relevant to the hex addresses and exchange names
handled by this program (no non-ASCII letters occur in them). -/
def asciiCasePairs : List (Char × Char) :=
  [('A', 'a'), ('B', 'b'), ('C', 'c'), ('D', 'd'), ('E', 'e'), ('F', 'f'),
   ('G', 'g'), ('H', 'h'), ('I', 'i'), ('J', 'j'), ('K', 'k'), ('L', 'l'),
   ('M', 'm'), ('N', 'n'), ('O', 'o'), ('P', 'p'), ('Q', 'q'), ('R', 'r'),
   ('S', 's'), ('T', 't'), ('U', 'u'), ('V', 'v'), ('W', 'w'), ('X', 'x'),
   ('Y', 'y'), ('Z', 'z')]

/-- ASCII lower-casing of one character; anything that is not an ASCII
capital letter is left unchanged. -/
def lowerChar (c : Char) : Char :=
  ((asciiCasePairs.find? (fun p => p.1 == c)).map (fun p => p.2)).getD c

/-- ASCII upper-casing of one character; anything that is not an ASCII
small letter is left unchanged. -/
def upperChar (c : Char) : Char :=
  ((asciiCasePairs.find? (fun p => p.2 == c)).map (fun p => p.1)).getD c

/-- JavaScript String.prototype.toLowerCase for the ASCII strings compared
in this program. -/
def jsToLower (s : String) : String := ⟨s.data.map lowerChar⟩

/-- JavaScript String.prototype.toUpperCase for the ASCII strings used in
this program. -/
def jsToUpper (s : String) : String := ⟨s.data.map upperChar⟩

/-- src/index.js lines 13-17, in object insertion order (the order
Object.entries iterates). -/
def CEX_ADDRESSES : List (String × String) :=
  [("lbank", "0xB9885e76B4FeE07791377f4099d6eD4F3E49c4d0"),
   ("mexc", "0x05d71131B754d09ffc84E8250419539Fb5BFe8eb"),
   ("coinstore", "0x86790abbaCcD1B21F5ecFDaA67EC6282AFbf3E83")]

/-- The fields of a raw transaction that processTransaction inspects
(fromAddr and toAddr stand for the tx.from and tx.to fields). -/
structure Tx where
  hash : Option String
  value : WeiInput
  fromAddr : Option String
  toAddr : Option String
deriving DecidableEq, Repr

/-- An entry of detectedTransfers (src/index.js lines 161-166). -/
structure Transfer where
  fromAddr : String
  toAddr : String
  amount : ℚ
  kind : String
deriving DecidableEq, Repr

/-- tx.from ? tx.from.toLowerCase() : '' (line 162). -/
def lowerOrEmpty : Option String → String
  | some s => if s = "" then "" else jsToLower s
  | none => ""

/-- The native-transfer detection of src/index.js lines 156-169: a truthy
value field different from '0x0' and '0' is converted with weiToTics and a
transfer is recorded only when the amount reaches CEX_THRESHOLD. -/
def detectedTransfers (tx : Tx) : List Transfer :=
  if ¬ weiFalsy tx.value ∧ tx.value ≠ .str "0x0" ∧ tx.value ≠ .str "0" then
    let amount := weiToTics tx.value
    if amount ≥ CEX_THRESHOLD then
      [{ fromAddr := lowerOrEmpty tx.fromAddr
         toAddr := lowerOrEmpty tx.toAddr
         amount := amount
         kind := "native" }]
    else []
  else []

/-- An alert handed to the dispatcher: sendCexAlert or sendWhaleAlert. -/
inductive Alert where
  | cex (kind : String) (cexName : String) (amount : ℚ) (usdValue : ℚ)
      (txHash : String)
  | whale (fromAddr toAddr : String) (amount : ℚ) (usdValue : ℚ)
      (txHash : String)
deriving DecidableEq, Repr

/-- The classification of one retained transfer (src/index.js lines 173-201),
as the list of alerts sent, in sending order: first the CEX match (the
destination checked against every configured address, then, only if no
deposit matched, the source), then, independently, the whale alert when the
amount reaches WHALE_THRESHOLD. -/
def classifyTransfer (t : Transfer) (currentPrice : ℚ) (txHash : String) :
    List Alert :=
  let usdValue := t.amount * currentPrice
  let cexAlerts :=
    match CEX_ADDRESSES.find? (fun p => t.toAddr == jsToLower p.2) with
    | some p => [.cex "deposit" (jsToUpper p.1) t.amount usdValue txHash]
    | none =>
      match CEX_ADDRESSES.find? (fun p => t.fromAddr == jsToLower p.2) with
      | some p => [.cex "withdrawal" (jsToUpper p.1) t.amount usdValue txHash]
      | none => []
  cexAlerts ++
    (if t.amount ≥ WHALE_THRESHOLD then
      [.whale t.fromAddr t.toAddr t.amount usdValue txHash]
    else [])

/-- processTransaction (src/index.js lines 152-207) as the list of alerts it
sends: nothing for a falsy hash; otherwise every detected transfer is
classified against the current composite price (obtained from
getCurrentPrice at run time and passed here as an argument). -/
def processTransaction (tx : Tx) (currentPrice : ℚ) : List Alert :=
  match tx.hash with
  | none => []
  | some h =>
    if h = "" then []
    else (detectedTransfers tx).flatMap fun t => classifyTransfer t currentPrice h

/-! Concrete inputs used by the claim witnesses and counterexamples. -/

/-- The coinstore REST fallback fetch fails (the common case). -/
def noRestEnv : RestEnv := { coinstore := none }

/-- The store at process start (src/index.js lines 23-27). -/
def initialStore : Store :=
  { mexc := initialSnapshot, lbank := initialSnapshot, coinstore := initialSnapshot }

/-- Exchange A of the end-to-end scenario: price 1.0000, volume 1000. -/
def c1aSnap : Snapshot :=
  { price := .num 1, volume := .num 1000, high := .num 1, low := .num 1
    timestamp := 100, connected := true }

/-- Exchange B of the end-to-end scenario: price 1.0200, volume 3000. -/
def c1bSnap : Snapshot :=
  { price := .num (51/50), volume := .num 3000, high := .num (51/50)
    low := .num (51/50), timestamp := 100, connected := true }

def c1Store : Store := { mexc := c1aSnap, lbank := c1bSnap, coinstore := initialSnapshot }

/-- A fresh snapshot with volume 0 and a price of 1.00005, i.e. more decimal
digits than toFixed(4) keeps. -/
def c1zaSnap : Snapshot :=
  { price := .num (20001/20000), volume := .num 0, high := .num 1, low := .num 1
    timestamp := 5, connected := true }

def c1zbSnap : Snapshot :=
  { price := .num 2, volume := .num 0, high := .num 2, low := .num 2
    timestamp := 5, connected := true }

def c1zStore : Store := { mexc := c1zaSnap, lbank := c1zbSnap, coinstore := initialSnapshot }

/-- A stale-but-positive mexc snapshot (usable by the spec's criteria). -/
def c1rMexcSnap : Snapshot :=
  { price := .num 1, volume := .num 1000, high := .num 1, low := .num 1
    timestamp := 50, connected := false }

/-- A live coinstore snapshot (usable by the spec's criteria). -/
def c1rCsSnap : Snapshot :=
  { price := .num 2, volume := .num 500, high := .num 2, low := .num 2
    timestamp := 50, connected := true }

/-- Two usable snapshots (mexc and coinstore) but a non-live lbank entry:
the state in which getCombinedData hits the undefined fetchLBankREST. -/
def c1rStore : Store :=
  { mexc := c1rMexcSnap, lbank := initialSnapshot, coinstore := c1rCsSnap }

/-- A coinstore REST fallback response with a positive price but NaN volume
(fetchCoinstoreREST applies parseFloat with no NaN guard, so a response
missing the volume field produces this). -/
def c2Rd : RestData :=
  { price := .num 2, volume := .nan, high := .num 2, low := .num 2, timestamp := 999 }

def c2Rest : RestEnv := { coinstore := some c2Rd }

/-- A live lbank snapshot whose negative volume fails the aggregation
filter: with it the lbank fast path holds (no ReferenceError) yet nothing
is usable, so line 658 is actually reached. -/
def negVolLbankSnap : Snapshot :=
  { price := .num 1, volume := .num (-1), high := .num 1, low := .num 1
    timestamp := 0, connected := true }

/-- Zero-usable state that reaches the no-data throw: lbank live but
volume-filtered, nothing else present. -/
def c2mStore : Store :=
  { mexc := initialSnapshot, lbank := negVolLbankSnap, coinstore := initialSnapshot }

/-- A disconnected mexc snapshot with positive price, 1000000 ms old at the
observation instant used below. -/
def c3Snap : Snapshot :=
  { price := .num 1, volume := .num 1, high := .num 1, low := .num 1
    timestamp := 0, connected := false }

/-- A live lbank snapshot accompanying c3Snap so that aggregation is
actually reached. -/
def c3LbankLive : Snapshot :=
  { price := .num 2, volume := .num 1, high := .num 2, low := .num 2
    timestamp := 1000000, connected := true }

def c3bStore : Store :=
  { mexc := c3Snap, lbank := c3LbankLive, coinstore := initialSnapshot }

/-- A mexc snapshot with positive price but negative volume (fetchMexcData
stores parseFloat(ticker.volume) unguarded, so a malformed API response can
produce this); it passes the price checks but fails the volume filter. -/
def c5MexcSnap : Snapshot :=
  { price := .num 2, volume := .num (-1), high := .num 2, low := .num 2
    timestamp := 50, connected := true }

/-- A fully usable lbank snapshot. -/
def c5LbankSnap : Snapshot :=
  { price := .num 1, volume := .num 100, high := .num 1, low := .num 1
    timestamp := 50, connected := true }

def c5Store : Store := { mexc := c5MexcSnap, lbank := c5LbankSnap, coinstore := initialSnapshot }

/-- A store where lbank holds the only present snapshot. -/
def c5wStore : Store :=
  { mexc := initialSnapshot, lbank := c5LbankSnap, coinstore := initialSnapshot }

/-- A usable mexc snapshot for the sole-mexc labelling case. -/
def c5mMexcSnap : Snapshot :=
  { price := .num 3, volume := .num 10, high := .num 3, low := .num 3
    timestamp := 0, connected := false }

/-- mexc usable, lbank live but volume-filtered: mexc is the sole
contributor and the label is correct. -/
def c5mStore : Store :=
  { mexc := c5mMexcSnap, lbank := negVolLbankSnap, coinstore := initialSnapshot }

/-- A successful coinstore REST fallback response. -/
def c4Rd : RestData :=
  { price := .num 1, volume := .num 50, high := .num 1, low := .num 1, timestamp := 999 }

def c4Rest : RestEnv := { coinstore := some c4Rd }

/-- A live lbank entry plus a stale coinstore entry: the coinstore REST
fallback (the only one that exists) runs and can cache its result. -/
def c4Store : Store :=
  { mexc := initialSnapshot, lbank := c5LbankSnap, coinstore := initialSnapshot }


/-- The mexc snapshot fetchMexcData writes for a ticker whose high and low
fields are missing: parseFloat(undefined) = NaN flows straight in. -/
def c6MexcSnap : Snapshot := mexcSnapshotOfTicker (.num 1) (.num 1) .nan .nan 50

def c6LbankSnap : Snapshot :=
  { price := .num 2, volume := .num 100, high := .num 2, low := .num 1
    timestamp := 50, connected := true }

def c6Store : Store := { mexc := c6MexcSnap, lbank := c6LbankSnap, coinstore := initialSnapshot }

/-- A transaction moving 19.999999 TICS (19999999·10^12 wei, hex-encoded as
the RPC delivers values). -/
def c7TxBelow : Tx :=
  { hash := some "0xabc", value := .str "0x1158e45203f2af000"
    fromAddr := some "0xAAA", toAddr := some "0xBBB" }

/-- A transaction moving exactly 20 TICS (20·10^18 wei). -/
def c7TxAt : Tx :=
  { hash := some "0xabc", value := .str "0x1158e460913d00000"
    fromAddr := some "0xAAA", toAddr := some "0xBBB" }

/-- A 150-TICS transfer between two ordinary (non-CEX) addresses. -/
def c8PlainTransfer : Transfer :=
  { fromAddr := "0xaa", toAddr := "0xbb", amount := 150, kind := "native" }

/-- A 150-TICS transfer into the configured LBank deposit address. -/
def c8CexTransfer : Transfer :=
  { fromAddr := "0xaa", toAddr := "0xb9885e76b4fee07791377f4099d6ed4f3e49c4d0"
    amount := 150, kind := "native" }

/-! Helper lemmas about the JavaScript value model and the aggregation
folds. -/

theorem truthy_num_eq {v : JsVal} (h : truthy v = true) :
    v = .num (toNumberD v) ∧ toNumberD v ≠ 0 := by
  cases v <;> simp_all [truthy, toNumberD, toNumber]

theorem jsGe_zero {v : JsVal} (h : jsGe v (.num 0) = true) :
    toNumber v = some (toNumberD v) ∧ 0 ≤ toNumberD v := by
  cases v <;> simp_all [jsGe, toNumberD, toNumber]

theorem notNaN_toNumber {v : JsVal} (h : isNaNJ v = false) :
    toNumber v = some (toNumberD v) := by
  cases v <;> simp_all [isNaNJ, toNumberD, toNumber]

theorem foldl_jsAdd_eq (f : Snapshot → JsVal) (g : Snapshot → ℚ) :
    ∀ l : List Snapshot, (∀ d ∈ l, toNumber (f d) = some (g d)) →
      ∀ a : ℚ, l.foldl (fun acc d => jsAdd acc (f d)) (.num a) =
        .num (a + (l.map g).sum) := by
  intro l
  induction l with
  | nil => intro _ a; simp
  | cons d t ih =>
    intro h a
    have hd : toNumber (f d) = some (g d) := h d (by simp)
    have step : jsAdd (.num a) (f d) = .num (a + g d) := by
      unfold jsAdd
      rw [hd]
      rfl
    rw [List.foldl_cons, step, ih (fun x hx => h x (by simp [hx])) (a + g d)]
    simp only [List.map_cons, List.sum_cons, JsVal.num.injEq]
    ring

theorem usableFilter_props {d : Snapshot} (h : usableFilter d = true) :
    d.price = .num (priceOf d) ∧ priceOf d ≠ 0 ∧
    toNumber d.volume = some (volOf d) ∧ 0 ≤ volOf d := by
  simp only [usableFilter, Bool.and_eq_true] at h
  obtain ⟨h1, h2⟩ := h
  obtain ⟨e1, e2⟩ := truthy_num_eq h1
  obtain ⟨e3, e4⟩ := jsGe_zero h2
  exact ⟨e1, e2, e3, e4⟩

theorem sumVolume_eq (l : List Snapshot) (h : ∀ d ∈ l, usableFilter d = true) :
    sumVolume l = .num (sumVolQ l) := by
  have key := foldl_jsAdd_eq (fun d => d.volume) volOf l
    (fun d hd => (usableFilter_props (h d hd)).2.2.1) 0
  simpa [sumVolume, sumVolQ] using key

theorem sumWeighted_eq (l : List Snapshot) (h : ∀ d ∈ l, usableFilter d = true) :
    sumWeighted l = .num (sumPVQ l) := by
  have key := foldl_jsAdd_eq (fun d => jsMul d.price d.volume)
    (fun d => priceOf d * volOf d) l
    (fun d hd => by
      obtain ⟨e1, _, e3, _⟩ := usableFilter_props (h d hd)
      show toNumber (jsMul d.price d.volume) = some (priceOf d * volOf d)
      unfold jsMul
      rw [e1, e3]
      rfl) 0
  simpa [sumWeighted, sumPVQ] using key

theorem sumHigh_eq (l : List Snapshot) (h : ∀ d ∈ l, isNaNJ d.high = false) :
    sumHigh l = .num (sumHighQ l) := by
  have key := foldl_jsAdd_eq (fun d => d.high) highOf l
    (fun d hd => notNaN_toNumber (h d hd)) 0
  simpa [sumHigh, sumHighQ] using key

theorem sumLow_eq (l : List Snapshot) (h : ∀ d ∈ l, isNaNJ d.low = false) :
    sumLow l = .num (sumLowQ l) := by
  have key := foldl_jsAdd_eq (fun d => d.low) lowOf l
    (fun d hd => notNaN_toNumber (h d hd)) 0
  simpa [sumLow, sumLowQ] using key

theorem sumVolQ_nonneg (l : List Snapshot) (h : ∀ d ∈ l, usableFilter d = true) :
    0 ≤ sumVolQ l := by
  unfold sumVolQ
  apply List.sum_nonneg
  intro x hx
  obtain ⟨d, hd, rfl⟩ := List.mem_map.mp hx
  exact (usableFilter_props (h d hd)).2.2.2

theorem combineAvailable_snd (m lb cs : Option Snapshot) (st2 : Store) :
    (combineAvailable m lb cs st2).2 = st2 := by
  simp only [combineAvailable]
  split <;> rfl

theorem combineAvailable_nil {m lb cs : Option Snapshot} {st2 : Store}
    (h : ([m, lb, cs].filterMap id).filter usableFilter = []) :
    combineAvailable m lb cs st2 =
      (.error "No valid data available from any exchange", st2) := by
  simp only [combineAvailable]
  rw [h]

theorem combineAvailable_one {m lb cs : Option Snapshot} {st2 : Store} {d : Snapshot}
    (h : ([m, lb, cs].filterMap id).filter usableFilter = [d]) :
    combineAvailable m lb cs st2 =
      (.ok (.single d (singleSourceName m lb cs)), st2) := by
  simp only [combineAvailable]
  rw [h]

theorem combineAvailable_many {m lb cs : Option Snapshot} {st2 : Store}
    {a b : Snapshot} {t : List Snapshot}
    (h : ([m, lb, cs].filterMap id).filter usableFilter = a :: b :: t) :
    combineAvailable m lb cs st2 =
      (.ok (.combined (mkCombined (a :: b :: t) m lb cs)), st2) := by
  simp only [combineAvailable]
  rw [h]

theorem availableExchanges_eq (st : Store) (rest : RestEnv) (now : ℤ) :
    availableExchanges st rest now =
      ([mexcCandidate st, validOf (lbankData st now),
        validOf (coinstoreData st rest now)].filterMap id).filter usableFilter := rfl

theorem wsUsable_props {d : Snapshot} {now : ℤ} (h : wsUsable d now = true) :
    d.connected = true ∧ truthy d.price = true ∧ jsGt d.price (.num 0) = true ∧
      now - d.timestamp < 30000 := by
  simp only [wsUsable, Bool.and_eq_true, decide_eq_true_eq] at h
  exact ⟨h.1.1.1, h.1.1.2, h.1.2, h.2⟩

theorem getExchangeData_lbank_live (st : Store) (rest : RestEnv) (now : ℤ)
    (h : wsUsable st.lbank now = true) :
    getExchangeData .lbank st rest now = (.ok (some st.lbank), st) := by
  simp only [getExchangeData, Store.get]
  rw [if_pos h]

theorem getExchangeData_lbank_throw (st : Store) (rest : RestEnv) (now : ℤ)
    (h : wsUsable st.lbank now = false) :
    getExchangeData .lbank st rest now = (.error lbankRefErr, st) := by
  simp only [getExchangeData, Store.get]
  rw [if_neg (by simp [h])]

theorem getExchangeData_coinstore_spec (st : Store) (rest : RestEnv) (now : ℤ) :
    getExchangeData .coinstore st rest now =
      (.ok (coinstoreData st rest now), coinstoreStore st rest now) := by
  by_cases h : wsUsable st.coinstore now = true
  · simp [getExchangeData, coinstoreData, coinstoreStore, Store.get, h]
  · simp only [Bool.not_eq_true] at h
    cases hr : rest.coinstore with
    | none => simp [getExchangeData, coinstoreData, coinstoreStore, Store.get, h, hr]
    | some rd =>
      by_cases hp : jsGt rd.price (.num 0) = true
      · simp [getExchangeData, coinstoreData, coinstoreStore, Store.get, h, hr, hp]
      · simp only [Bool.not_eq_true] at hp
        simp [getExchangeData, coinstoreData, coinstoreStore, Store.get, h, hr, hp]

theorem lbankData_live (st : Store) (now : ℤ) (h : wsUsable st.lbank now = true) :
    lbankData st now = some st.lbank := by
  simp [lbankData, h]

theorem validOf_lbank_live (st : Store) (now : ℤ)
    (h : wsUsable st.lbank now = true) :
    validOf (lbankData st now) = some st.lbank := by
  obtain ⟨_, htr, hgt, _⟩ := wsUsable_props h
  rw [lbankData_live st now h]
  simp [validOf, htr, hgt]

theorem getCombinedData_live (st : Store) (rest : RestEnv) (now : ℤ)
    (h : wsUsable st.lbank now = true) :
    getCombinedData st rest now =
      combineAvailable (mexcCandidate st) (validOf (lbankData st now))
        (validOf (coinstoreData st rest now)) (coinstoreStore st rest now) := by
  rw [lbankData_live st now h]
  simp only [getCombinedData]
  rw [getExchangeData_lbank_live st rest now h, getExchangeData_coinstore_spec]

theorem getCombinedData_throw (st : Store) (rest : RestEnv) (now : ℤ)
    (h : wsUsable st.lbank now = false) :
    getCombinedData st rest now = (.error lbankRefErr, st) := by
  simp only [getCombinedData]
  rw [getExchangeData_lbank_throw st rest now h]

theorem coinstoreStore_mexc (st : Store) (rest : RestEnv) (now : ℤ) :
    (coinstoreStore st rest now).mexc = st.mexc := by
  unfold coinstoreStore
  split
  · rfl
  · split
    · split <;> rfl
    · rfl

theorem coinstoreStore_lbank (st : Store) (rest : RestEnv) (now : ℤ) :
    (coinstoreStore st rest now).lbank = st.lbank := by
  unfold coinstoreStore
  split
  · rfl
  · split
    · split <;> rfl
    · rfl

theorem coinstoreStore_cases (st : Store) (rest : RestEnv) (now : ℤ) :
    coinstoreStore st rest now = st ∨
    ∃ rd, rest.coinstore = some rd ∧ jsGt rd.price (.num 0) = true ∧
      coinstoreStore st rest now = st.set .coinstore (snapOfRest rd) := by
  unfold coinstoreStore
  by_cases h : wsUsable st.coinstore now = true
  · rw [if_pos h]
    exact Or.inl rfl
  · rw [if_neg h]
    cases hr : rest.coinstore with
    | none => exact Or.inl rfl
    | some rd =>
      by_cases hp : jsGt rd.price (.num 0) = true
      · refine Or.inr ⟨rd, rfl, hp, ?_⟩
        show (if jsGt rd.price (.num 0) = true
          then st.set .coinstore (snapOfRest rd) else st) = _
        rw [if_pos hp]
      · refine Or.inl ?_
        show (if jsGt rd.price (.num 0) = true
          then st.set .coinstore (snapOfRest rd) else st) = _
        rw [if_neg hp]

theorem store_frame (st : Store) (rest : RestEnv) (now : ℤ) :
    (getCombinedData st rest now).2.mexc = st.mexc ∧
    (getCombinedData st rest now).2.lbank = st.lbank ∧
    ((getCombinedData st rest now).2.coinstore = st.coinstore ∨
      ∃ rd, rest.coinstore = some rd ∧ jsGt rd.price (.num 0) = true ∧
        (getCombinedData st rest now).2.coinstore = snapOfRest rd) := by
  by_cases hlive : wsUsable st.lbank now = true
  · have hsnd : (getCombinedData st rest now).2 = coinstoreStore st rest now := by
      rw [getCombinedData_live st rest now hlive, combineAvailable_snd]
    rw [hsnd]
    refine ⟨coinstoreStore_mexc st rest now, coinstoreStore_lbank st rest now, ?_⟩
    rcases coinstoreStore_cases st rest now with hc | ⟨rd, hr, hp, hc⟩
    · rw [hc]
      exact Or.inl rfl
    · rw [hc]
      exact Or.inr ⟨rd, hr, hp, rfl⟩
  · simp only [Bool.not_eq_true] at hlive
    rw [getCombinedData_throw st rest now hlive]
    exact ⟨rfl, rfl, Or.inl rfl⟩

/-! Claim C1. -/

/-- C1, counterexample: two defects at concrete inputs.  With total volume
zero the claim demands the first contributing snapshot's price EXACTLY, but
the code applies toFixed(4), so a first snapshot priced 1.00005 yields a
composite price of 1.0001.  And with two usable snapshots (a stale mexc and
a live coinstore) but a non-live lbank entry, no composite price is
returned at all: line 624 evaluates the undefined fetchLBankREST and
getCombinedData rejects with a ReferenceError. -/
theorem c1_zero_volume_counterexample :
    wsUsable c1zStore.lbank 5 = true ∧
    availableExchanges c1zStore noRestEnv 5 = [c1zaSnap, c1zbSnap] ∧
    sumVolQ [c1zaSnap, c1zbSnap] = 0 ∧
    c1zaSnap.price = .num (20001/20000) ∧
    resultPrice (getCombinedData c1zStore noRestEnv 5).1 = .num (10001/10000) ∧
    (10001/10000 : ℚ) ≠ 20001/20000 ∧
    usableFilter c1rStore.mexc = true ∧
    usableFilter c1rStore.coinstore = true ∧
    wsUsable c1rStore.coinstore 50 = true ∧
    getCombinedData c1rStore noRestEnv 50 = (.error lbankRefErr, c1rStore) := by
  refine ⟨rfl, ?_, ?_, rfl, ?_, by norm_num, rfl, rfl, rfl, rfl⟩
  · norm_num [availableExchanges, lbankData, coinstoreData, wsUsable, mexcCandidate,
      validOf, usableFilter, jsGt, jsGe, truthy, toNumber, c1zStore, c1zaSnap,
      c1zbSnap, noRestEnv, initialSnapshot, List.filterMap_cons, List.filterMap_nil,
      List.filter_cons, List.filter_nil, id_eq, decide_eq_true_eq]
  · norm_num [sumVolQ, volOf, toNumberD, toNumber, c1zaSnap, c1zbSnap]
  · norm_num [getCombinedData, getExchangeData, wsUsable, Store.get, Store.set,
      mexcCandidate, validOf, usableFilter, combineAvailable, mkCombined,
      singleSourceName, breakdownPrice, breakdownVolume, sumVolume, sumWeighted,
      sumHigh, sumLow, maxTimestamp, jsGt, jsGe, jsAdd, jsMul, jsDiv, truthy,
      toNumber, toFixed4J, toFixed4, resultPrice, c1zStore, c1zaSnap, c1zbSnap,
      noRestEnv, initialSnapshot, List.filterMap_cons, List.filterMap_nil,
      List.filter_cons, List.filter_nil, id_eq, decide_eq_true_eq]

/-- C1, amended: when the lbank snapshot passes the line-616 live check (so
the undefined-fetchLBankREST ReferenceError of line 624 is not thrown) and
two or more snapshots contribute, the composite price equals the
volume-weighted mean Σ(price·volume)/Σ(volume) rounded to 4 decimal places,
falling back to the FIRST contributing snapshot's price, also rounded to 4
decimal places, when the total volume is zero; in every state whose lbank
entry fails the live check getCombinedData instead throws the
ReferenceError, so no composite price is produced there.  For the
documented example the composite price is exactly 1.0150 (witness). -/
theorem c1_price_vwap_rounded :
    (∀ (st : Store) (rest : RestEnv) (now : ℤ) (a b : Snapshot) (t : List Snapshot),
      wsUsable st.lbank now = true →
      availableExchanges st rest now = a :: b :: t →
      resultPrice (getCombinedData st rest now).1 =
        .num (toFixed4 (if sumVolQ (a :: b :: t) = 0 then priceOf a
          else sumPVQ (a :: b :: t) / sumVolQ (a :: b :: t)))) ∧
    (∀ (st : Store) (rest : RestEnv) (now : ℤ),
      wsUsable st.lbank now = false →
      getCombinedData st rest now = (.error lbankRefErr, st)) := by
  constructor
  · intro st rest now a b t hlive h
    have h' : ([mexcCandidate st, validOf (lbankData st now),
        validOf (coinstoreData st rest now)].filterMap id).filter usableFilter
        = a :: b :: t := h
    have hmem : ∀ d ∈ a :: b :: t, usableFilter d = true := by
      intro d hd
      rw [← h'] at hd
      exact (List.mem_filter.mp hd).2
    rw [getCombinedData_live st rest now hlive, combineAvailable_many h']
    show (mkCombined (a :: b :: t) _ _ _).price = _
    simp only [mkCombined]
    rw [sumVolume_eq _ hmem, sumWeighted_eq _ hmem]
    have hnn := sumVolQ_nonneg _ hmem
    by_cases h0 : sumVolQ (a :: b :: t) = 0
    · rw [if_neg (by simp [jsGt, toNumber, h0]), if_pos h0]
      have ha := (usableFilter_props (hmem a (by simp))).1
      show toFixed4J a.price = _
      rw [ha]
      rfl
    · rw [if_pos (by
          simp only [jsGt, toNumber, decide_eq_true_eq]
          exact lt_of_le_of_ne hnn (Ne.symm h0)),
        if_neg h0]
      show toFixed4J (jsDiv (.num (sumPVQ (a :: b :: t)))
        (.num (sumVolQ (a :: b :: t)))) = _
      simp only [jsDiv, toNumber]
      rw [if_neg h0]
      rfl
  · intro st rest now h
    exact getCombinedData_throw st rest now h

theorem c1_price_vwap_rounded_witness :
    wsUsable c1Store.lbank 100 = true ∧
    availableExchanges c1Store noRestEnv 100 = [c1aSnap, c1bSnap] ∧
    sumVolQ [c1aSnap, c1bSnap] = 4000 ∧
    sumPVQ [c1aSnap, c1bSnap] / sumVolQ [c1aSnap, c1bSnap] = 203/200 ∧
    resultPrice (getCombinedData c1Store noRestEnv 100).1 = .num (203/200) ∧
    wsUsable initialStore.lbank 0 = false ∧
    getCombinedData initialStore noRestEnv 0 = (.error lbankRefErr, initialStore) := by
  have hlive : wsUsable c1Store.lbank 100 = true := by
    norm_num [wsUsable, truthy, jsGt, toNumber, c1Store, c1bSnap, decide_eq_true_eq]
  have h : availableExchanges c1Store noRestEnv 100 = [c1aSnap, c1bSnap] := by
    norm_num [availableExchanges, lbankData, coinstoreData, wsUsable, mexcCandidate,
      validOf, usableFilter, jsGt, jsGe, truthy, toNumber, c1Store, c1aSnap, c1bSnap,
      noRestEnv, initialSnapshot, List.filterMap_cons, List.filterMap_nil,
      List.filter_cons, List.filter_nil, id_eq, decide_eq_true_eq]
  have key := c1_price_vwap_rounded.1 c1Store noRestEnv 100 c1aSnap c1bSnap [] hlive h
  refine ⟨hlive, h, ?_, ?_, ?_,
    rfl, c1_price_vwap_rounded.2 initialStore noRestEnv 0 rfl⟩
  · norm_num [sumVolQ, volOf, toNumberD, toNumber, c1aSnap, c1bSnap]
  · norm_num [sumPVQ, sumVolQ, volOf, priceOf, toNumberD, toNumber, c1aSnap, c1bSnap]
  · rw [key]
    norm_num [sumPVQ, sumVolQ, volOf, priceOf, toNumberD, toNumber, c1aSnap, c1bSnap,
      toFixed4]

/-! Claim C2. -/

/-- C2, counterexample: in the typical zero-usable state (here the initial
store) getCombinedData does not fail with a no-data error: line 624 throws
ReferenceError: fetchLBankREST is not defined first, so the claimed error
message is wrong there.  And on the narrow path that does reach the no-data
throw (lbank live but volume-filtered), a coinstore REST response with
positive price and NaN volume is still cached into the store, leaving a
partial result behind on the failing call. -/
theorem c2_store_mutation_counterexample :
    getCombinedData initialStore noRestEnv 0 = (.error lbankRefErr, initialStore) ∧
    lbankRefErr ≠ "No valid data available from any exchange" ∧
    (getCombinedData c2mStore c2Rest 0).1 =
      .error "No valid data available from any exchange" ∧
    (getCombinedData c2mStore c2Rest 0).2.coinstore = snapOfRest c2Rd ∧
    (getCombinedData c2mStore c2Rest 0).2 ≠ c2mStore := by
  exact ⟨rfl, by decide, rfl, rfl, by decide⟩

/-- C2, amended: in a zero-usable state getCombinedData always fails and the
error propagates to the caller, but the error depends on the lbank entry:
if the lbank snapshot fails the line-616 live check (the typical case,
including the initial store), the call throws the ReferenceError from the
undefined fetchLBankREST before any aggregation and the store is untouched;
only when the lbank snapshot is live (and merely fails the usability
filter) does the call throw 'No valid data available from any exchange',
and then the store is unchanged except that a positive-price coinstore REST
response that still failed the filter may have been cached (connected =
false).  No composite value is produced in either case. -/
theorem c2_no_data_error :
    (∀ (st : Store) (rest : RestEnv) (now : ℤ),
      wsUsable st.lbank now = false →
      getCombinedData st rest now = (.error lbankRefErr, st)) ∧
    (∀ (st : Store) (rest : RestEnv) (now : ℤ),
      wsUsable st.lbank now = true →
      availableExchanges st rest now = [] →
      (getCombinedData st rest now).1 =
        .error "No valid data available from any exchange" ∧
      (getCombinedData st rest now).2.mexc = st.mexc ∧
      (getCombinedData st rest now).2.lbank = st.lbank ∧
      ((getCombinedData st rest now).2.coinstore = st.coinstore ∨
        ∃ rd, rest.coinstore = some rd ∧ jsGt rd.price (.num 0) = true ∧
          (getCombinedData st rest now).2.coinstore = snapOfRest rd)) := by
  constructor
  · intro st rest now h
    exact getCombinedData_throw st rest now h
  · intro st rest now hlive h
    have h' : ([mexcCandidate st, validOf (lbankData st now),
        validOf (coinstoreData st rest now)].filterMap id).filter usableFilter = [] := h
    rw [getCombinedData_live st rest now hlive, combineAvailable_nil h']
    refine ⟨rfl, coinstoreStore_mexc st rest now, coinstoreStore_lbank st rest now, ?_⟩
    rcases coinstoreStore_cases st rest now with hc | ⟨rd, hr, hp, hc⟩
    · rw [hc]
      exact Or.inl rfl
    · rw [hc]
      exact Or.inr ⟨rd, hr, hp, rfl⟩

theorem c2_no_data_error_witness :
    wsUsable initialStore.lbank 0 = false ∧
    getCombinedData initialStore noRestEnv 0 = (.error lbankRefErr, initialStore) ∧
    wsUsable c2mStore.lbank 0 = true ∧
    availableExchanges c2mStore noRestEnv 0 = [] ∧
    (getCombinedData c2mStore noRestEnv 0).1 =
      .error "No valid data available from any exchange" ∧
    (getCombinedData c2mStore noRestEnv 0).2 = c2mStore := by
  exact ⟨rfl, c2_no_data_error.1 initialStore noRestEnv 0 rfl, rfl, rfl,
    (c2_no_data_error.2 c2mStore noRestEnv 0 rfl rfl).1, rfl⟩

/-! Claim C3. -/

/-- C3, counterexample: the claim says every snapshot with connected = false
and age at or above 30s is excluded from aggregation, but the mexc snapshot
bypasses both the connectivity and the freshness check (line 647 only
requires a positive price): with a live lbank entry alongside, a 1000000 ms
old disconnected mexc snapshot enters the array and moves the composite
price to 1.5 (the volume-weighted mean of mexc's 1 and lbank's 2) instead
of lbank's 2. -/
theorem c3_stale_mexc_counterexample :
    c3bStore.mexc.connected = false ∧
    (30000 : ℤ) ≤ 1000000 - c3bStore.mexc.timestamp ∧
    jsGt c3bStore.mexc.price (.num 0) = true ∧
    availableExchanges c3bStore noRestEnv 1000000 = [c3Snap, c3LbankLive] ∧
    resultPrice (getCombinedData c3bStore noRestEnv 1000000).1 = .num (3/2) := by
  refine ⟨rfl, by decide, rfl, rfl, ?_⟩
  norm_num [getCombinedData, getExchangeData, wsUsable, Store.get, Store.set,
    mexcCandidate, validOf, usableFilter, combineAvailable, mkCombined,
    singleSourceName, breakdownPrice, breakdownVolume, sumVolume, sumWeighted,
    sumHigh, sumLow, maxTimestamp, jsGt, jsGe, jsAdd, jsMul, jsDiv, truthy,
    toNumber, toFixed4J, toFixed4, resultPrice, c3bStore, c3Snap, c3LbankLive,
    noRestEnv, initialSnapshot, List.filterMap_cons, List.filterMap_nil,
    List.filter_cons, List.filter_nil, id_eq, decide_eq_true_eq]

/-- C3, amended: for the coinstore snapshot the claim holds: one marked
connected = false (of any age, in particular at or above the 30 s
threshold) is not served from the store, and the one-shot REST fallback's
result is used only when it carries a positive price, cached with connected
remaining false.  The lbank snapshot has no working fallback: when it is
disconnected (so in particular when also stale) getCombinedData throws the
ReferenceError from the undefined fetchLBankREST and aggregates nothing at
all.  The mexc snapshot is exempt in the opposite direction: whenever its
price is positive and its volume passes the filter it enters the
availableExchanges array regardless of connected flag and age, with no
fallback involved. -/
theorem c3_fallback_exclusion :
    (∀ (st : Store) (rest : RestEnv) (now : ℤ),
      st.coinstore.connected = false → 30000 ≤ now - st.coinstore.timestamp →
      (rest.coinstore = none →
        getExchangeData .coinstore st rest now = (.ok none, st)) ∧
      (∀ rd, rest.coinstore = some rd →
        (jsGt rd.price (.num 0) = false →
          getExchangeData .coinstore st rest now = (.ok none, st)) ∧
        (jsGt rd.price (.num 0) = true →
          getExchangeData .coinstore st rest now =
            (.ok (some (snapOfRest rd)), st.set .coinstore (snapOfRest rd)) ∧
          (snapOfRest rd).connected = false))) ∧
    (∀ (st : Store) (rest : RestEnv) (now : ℤ),
      st.lbank.connected = false → 30000 ≤ now - st.lbank.timestamp →
      getCombinedData st rest now = (.error lbankRefErr, st)) ∧
    (∀ (st : Store) (rest : RestEnv) (now : ℤ),
      wsUsable st.lbank now = true →
      truthy st.mexc.price = true → jsGt st.mexc.price (.num 0) = true →
      jsGe st.mexc.volume (.num 0) = true →
      st.mexc ∈ availableExchanges st rest now) := by
  refine ⟨?_, ?_, ?_⟩
  · intro st rest now hconn _
    have hnl : wsUsable st.coinstore now = false := by simp [wsUsable, hconn]
    refine ⟨fun hnone => ?_, fun rd hrd => ⟨fun hp => ?_, fun hp => ⟨?_, rfl⟩⟩⟩
    · rw [getExchangeData_coinstore_spec]
      simp [coinstoreData, coinstoreStore, hnl, hnone]
    · rw [getExchangeData_coinstore_spec]
      simp [coinstoreData, coinstoreStore, hnl, hrd, hp]
    · rw [getExchangeData_coinstore_spec]
      simp [coinstoreData, coinstoreStore, hnl, hrd, hp]
  · intro st rest now hconn _
    exact getCombinedData_throw st rest now (by simp [wsUsable, hconn])
  · intro st rest now _ htr hgt hge
    have hm : mexcCandidate st = some st.mexc := by
      unfold mexcCandidate
      rw [if_pos (by simp [htr, hgt])]
    have hu : usableFilter st.mexc = true := by simp [usableFilter, htr, hge]
    rw [availableExchanges_eq, hm]
    refine List.mem_filter.mpr ⟨?_, hu⟩
    exact List.mem_filterMap.mpr ⟨some st.mexc, by simp, rfl⟩

theorem c3_fallback_exclusion_witness :
    getExchangeData .coinstore initialStore noRestEnv 1000000 =
      (.ok none, initialStore) ∧
    getExchangeData .coinstore initialStore c4Rest 1000000 =
      (.ok (some (snapOfRest c4Rd)), initialStore.set .coinstore (snapOfRest c4Rd)) ∧
    (snapOfRest c4Rd).connected = false ∧
    getCombinedData initialStore noRestEnv 1000000 =
      (.error lbankRefErr, initialStore) ∧
    c3bStore.mexc ∈ availableExchanges c3bStore noRestEnv 1000000 := by
  refine ⟨?_, ?_, rfl, ?_, ?_⟩
  · exact (c3_fallback_exclusion.1 initialStore noRestEnv 1000000 rfl (by decide)).1 rfl
  · exact (((c3_fallback_exclusion.1 initialStore c4Rest 1000000 rfl (by decide)).2
      c4Rd rfl).2 rfl).1
  · exact c3_fallback_exclusion.2.1 initialStore noRestEnv 1000000 rfl (by decide)
  · exact c3_fallback_exclusion.2.2 c3bStore noRestEnv 1000000 rfl rfl rfl rfl

/-! Claim C4. -/

/-- C4, counterexample: the claim says the aggregation path only reads the
ticker store, but with a live lbank entry and a stale coinstore entry a
successful coinstore REST fallback during getCombinedData overwrites the
coinstore store entry (line 636), so the store after the call differs from
the store before it. -/
theorem c4_aggregator_writes_counterexample :
    (getCombinedData c4Store c4Rest 50).2 ≠ c4Store ∧
    (getCombinedData c4Store c4Rest 50).2.coinstore = snapOfRest c4Rd ∧
    (snapOfRest c4Rd).connected = false := by
  exact ⟨by decide, rfl, rfl⟩

/-- C4, amended: the aggregation path never writes the mexc or lbank store
entries; it writes the coinstore entry only to cache a successful coinstore
REST fallback result (positive price), always marked connected = false.
With no successful fallback — in particular whenever the lbank
ReferenceError aborts the call before the coinstore fetch — the store is
untouched.  (Connector handlers remain the only other writers.) -/
theorem c4_frame_condition (st : Store) (rest : RestEnv) (now : ℤ) :
    (getCombinedData st rest now).2.mexc = st.mexc ∧
    (getCombinedData st rest now).2.lbank = st.lbank ∧
    ((getCombinedData st rest now).2.coinstore = st.coinstore ∨
      ∃ rd, rest.coinstore = some rd ∧ jsGt rd.price (.num 0) = true ∧
        (getCombinedData st rest now).2.coinstore = snapOfRest rd) :=
  store_frame st rest now

/-! Claim C5. -/

/-- C5, counterexample: the claim says the single-usable-snapshot result
carries a source label naming exactly the contributing exchange; but the
label is chosen from the pre-filter candidates (line 663 tests mexcData,
which has passed only the price check), so with a mexc snapshot of positive
price and negative volume (filtered out) and a live lbank entry as the sole
usable source, the returned data is lbank's while the label says
'MEXC only'. -/
theorem c5_source_label_counterexample :
    wsUsable c5Store.lbank 50 = true ∧
    availableExchanges c5Store noRestEnv 50 = [c5LbankSnap] ∧
    (getCombinedData c5Store noRestEnv 50).1 =
      .ok (.single c5LbankSnap "MEXC only") ∧
    c5Store.lbank = c5LbankSnap ∧
    c5Store.mexc ≠ c5LbankSnap ∧
    truthy c5Store.mexc.price = true ∧
    jsGt c5Store.mexc.price (.num 0) = true := by
  exact ⟨rfl, rfl, rfl, rfl, by decide, rfl, rfl⟩

/-- C5, amended: results are only produced when the lbank snapshot passes
the live check (otherwise the ReferenceError of line 624 aborts the call).
Then, when exactly one snapshot passes the usability filter, getCombinedData
returns that snapshot's raw fields unchanged (no weighting, rounding or
averaging) with a source label equal to the first present pre-filter
candidate in mexc, lbank, coinstore order; that label names the
contributing exchange when the contributor is the first present candidate —
always for a sole mexc contributor, and for a sole lbank contributor
whenever no mexc candidate is present — and can misname it when an
earlier-listed exchange has a present but volume-filtered candidate. -/
theorem c5_single_snapshot :
    (∀ (st : Store) (rest : RestEnv) (now : ℤ) (d : Snapshot),
      wsUsable st.lbank now = true →
      availableExchanges st rest now = [d] →
      (getCombinedData st rest now).1 =
        .ok (.single d (singleSourceName (mexcCandidate st)
          (validOf (lbankData st now)) (validOf (coinstoreData st rest now))))) ∧
    (∀ (st : Store) (rest : RestEnv) (now : ℤ) (d : Snapshot),
      wsUsable st.lbank now = true →
      availableExchanges st rest now = [d] →
      mexcCandidate st = some d →
      (getCombinedData st rest now).1 = .ok (.single d "MEXC only")) ∧
    (∀ (st : Store) (rest : RestEnv) (now : ℤ) (d : Snapshot),
      wsUsable st.lbank now = true →
      availableExchanges st rest now = [d] →
      mexcCandidate st = none → usableFilter st.lbank = true →
      d = st.lbank ∧
      (getCombinedData st rest now).1 = .ok (.single d "LBank only")) := by
  have base : ∀ (st : Store) (rest : RestEnv) (now : ℤ) (d : Snapshot),
      wsUsable st.lbank now = true →
      availableExchanges st rest now = [d] →
      (getCombinedData st rest now).1 =
        .ok (.single d (singleSourceName (mexcCandidate st)
          (validOf (lbankData st now)) (validOf (coinstoreData st rest now)))) := by
    intro st rest now d hlive h
    have h' : ([mexcCandidate st, validOf (lbankData st now),
        validOf (coinstoreData st rest now)].filterMap id).filter usableFilter
        = [d] := h
    rw [getCombinedData_live st rest now hlive, combineAvailable_one h']
  refine ⟨base, ?_, ?_⟩
  · intro st rest now d hlive h hm
    rw [base st rest now d hlive h, hm]
    rfl
  · intro st rest now d hlive h hm hlb
    have hvl := validOf_lbank_live st now hlive
    have hmem : st.lbank ∈ availableExchanges st rest now := by
      rw [availableExchanges_eq]
      refine List.mem_filter.mpr ⟨?_, hlb⟩
      refine List.mem_filterMap.mpr ⟨some st.lbank, ?_, rfl⟩
      simp [hvl]
    rw [h] at hmem
    have hd : d = st.lbank := (List.mem_singleton.mp hmem).symm
    subst hd
    refine ⟨rfl, ?_⟩
    rw [base st rest now st.lbank hlive h, hm, hvl]
    rfl

theorem c5_single_snapshot_witness :
    availableExchanges c5wStore noRestEnv 50 = [c5LbankSnap] ∧
    (getCombinedData c5wStore noRestEnv 50).1 =
      .ok (.single c5LbankSnap "LBank only") ∧
    availableExchanges c5mStore noRestEnv 0 = [c5mMexcSnap] ∧
    (getCombinedData c5mStore noRestEnv 0).1 =
      .ok (.single c5mMexcSnap "MEXC only") := by
  refine ⟨rfl, ?_, rfl, ?_⟩
  · exact (c5_single_snapshot.2.2 c5wStore noRestEnv 50 c5LbankSnap rfl rfl rfl rfl).2
  · exact c5_single_snapshot.2.1 c5mStore noRestEnv 0 c5mMexcSnap rfl rfl rfl

/-! Claim C6. -/

/-- C6, counterexample: the claim says a missing high/low never produces NaN
in the composite mean, but only the LBank connector substitutes the price
for a NaN bound; fetchMexcData stores raw parseFloat results, so a mexc
ticker without high/low fields puts NaN into the store and (with a live
lbank entry alongside) the combined high and low become NaN. -/
theorem c6_nan_high_counterexample :
    wsUsable c6Store.lbank 50 = true ∧
    c6MexcSnap = mexcSnapshotOfTicker (.num 1) (.num 1) .nan .nan 50 ∧
    c6MexcSnap.high = .nan ∧
    availableExchanges c6Store noRestEnv 50 = [c6MexcSnap, c6LbankSnap] ∧
    resultHigh (getCombinedData c6Store noRestEnv 50).1 = .nan ∧
    resultLow (getCombinedData c6Store noRestEnv 50).1 = .nan := by
  exact ⟨rfl, rfl, rfl, rfl, rfl, rfl⟩

/-- C6, amended: on the runs that aggregate at all (lbank live, otherwise
the line-624 ReferenceError aborts getCombinedData), with two or more
contributing snapshots whose high and low are all non-NaN, the composite
high and low are the arithmetic means of the contributing values rounded to
4 decimal places (null bounds counting as 0); the substitution of the price
for a missing bound is performed only by the LBank WebSocket handler, whose
successfully stored snapshots indeed never carry a NaN high or low; a
contributing snapshot from another feed with a NaN bound makes the
composite high/low NaN. -/
theorem c6_high_low_mean :
    (∀ (st : Store) (rest : RestEnv) (now : ℤ) (a b : Snapshot) (t : List Snapshot),
      wsUsable st.lbank now = true →
      availableExchanges st rest now = a :: b :: t →
      (∀ d ∈ a :: b :: t, isNaNJ d.high = false ∧ isNaNJ d.low = false) →
      resultHigh (getCombinedData st rest now).1 =
        .num (toFixed4 (sumHighQ (a :: b :: t) / ((a :: b :: t).length : ℚ))) ∧
      resultLow (getCombinedData st rest now).1 =
        .num (toFixed4 (sumLowQ (a :: b :: t) / ((a :: b :: t).length : ℚ)))) ∧
    (∀ (price volume high low : JsVal) (prev : Snapshot) (now : ℤ),
      (processLBankTick price volume high low prev now).connected = true →
      isNaNJ (processLBankTick price volume high low prev now).high = false ∧
      isNaNJ (processLBankTick price volume high low prev now).low = false) := by
  constructor
  · intro st rest now a b t hlive h hnan
    have h' : ([mexcCandidate st, validOf (lbankData st now),
        validOf (coinstoreData st rest now)].filterMap id).filter usableFilter
        = a :: b :: t := h
    have hlen : ¬ (((a :: b :: t).length : ℚ) = 0) :=
      Nat.cast_ne_zero.mpr (by simp)
    constructor
    · rw [getCombinedData_live st rest now hlive, combineAvailable_many h']
      show (mkCombined (a :: b :: t) _ _ _).high = _
      simp only [mkCombined]
      rw [sumHigh_eq _ (fun d hd => (hnan d hd).1)]
      show toFixed4J (jsDiv (.num (sumHighQ (a :: b :: t)))
        (.num ((a :: b :: t).length : ℚ))) = _
      simp only [jsDiv, toNumber]
      rw [if_neg hlen]
      rfl
    · rw [getCombinedData_live st rest now hlive, combineAvailable_many h']
      show (mkCombined (a :: b :: t) _ _ _).low = _
      simp only [mkCombined]
      rw [sumLow_eq _ (fun d hd => (hnan d hd).2)]
      show toFixed4J (jsDiv (.num (sumLowQ (a :: b :: t)))
        (.num ((a :: b :: t).length : ℚ))) = _
      simp only [jsDiv, toNumber]
      rw [if_neg hlen]
      rfl
  · intro price volume high low prev now hconn
    unfold processLBankTick at hconn ⊢
    by_cases hc : (!isNaNJ price && jsGt price (.num 0) && !isNaNJ volume &&
        jsGe volume (.num 0)) = true
    · rw [if_pos hc] at hconn ⊢
      have hp : isNaNJ price = false := by
        simp only [Bool.and_eq_true] at hc
        simpa using hc.1.1.1
      constructor
      · show isNaNJ (if !isNaNJ high then high else price) = false
        by_cases hh : isNaNJ high = false
        · rw [if_pos (by simp [hh])]
          exact hh
        · rw [if_neg (by simp_all)]
          exact hp
      · show isNaNJ (if !isNaNJ low then low else price) = false
        by_cases hh : isNaNJ low = false
        · rw [if_pos (by simp [hh])]
          exact hh
        · rw [if_neg (by simp_all)]
          exact hp
    · rw [if_neg hc] at hconn
      simp at hconn

theorem c6_high_low_mean_witness :
    resultHigh (getCombinedData c1Store noRestEnv 100).1 = .num (101/100) ∧
    (processLBankTick (.num 2) (.num 5) .nan .nan initialSnapshot 7).connected = true ∧
    isNaNJ (processLBankTick (.num 2) (.num 5) .nan .nan initialSnapshot 7).high
      = false ∧
    isNaNJ (processLBankTick (.num 2) (.num 5) .nan .nan initialSnapshot 7).low
      = false := by
  have hlive : wsUsable c1Store.lbank 100 = true := by
    norm_num [wsUsable, truthy, jsGt, toNumber, c1Store, c1bSnap, decide_eq_true_eq]
  have h : availableExchanges c1Store noRestEnv 100 = [c1aSnap, c1bSnap] := by
    norm_num [availableExchanges, lbankData, coinstoreData, wsUsable, mexcCandidate,
      validOf, usableFilter, jsGt, jsGe, truthy, toNumber, c1Store, c1aSnap, c1bSnap,
      noRestEnv, initialSnapshot, List.filterMap_cons, List.filterMap_nil,
      List.filter_cons, List.filter_nil, id_eq, decide_eq_true_eq]
  obtain ⟨hhigh, _⟩ := c6_high_low_mean.1 c1Store noRestEnv 100 c1aSnap c1bSnap []
    hlive h (by decide)
  have hsub := c6_high_low_mean.2 (.num 2) (.num 5) .nan .nan initialSnapshot 7 rfl
  refine ⟨?_, rfl, hsub.1, hsub.2⟩
  rw [hhigh]
  norm_num [sumHighQ, highOf, toNumberD, toNumber, c1aSnap, c1bSnap, toFixed4]

/-! Claim C9. -/

/-- C9, counterexample: the claim asserts that the decimal string
"25000000000000000000" (25·10^18) converts to exactly 25, but weiToTics
prefixes '0x' to any string lacking that prefix, so the decimal digits are
reinterpreted as hexadecimal (0x25000000000000000000 = 37·2^72) and the
result is about 174727.56, not 25. -/
theorem c9_decimal_as_hex_counterexample :
    weiToTics (.str "25000000000000000000") ≠ 25 := by
  show ((174727559866176872906752 : ℕ) : ℚ) / 10 ^ 18 ≠ 25
  norm_num

/-- C9, amended: weiToTics divides the integer base-unit value by 10^18
reading the input as hexadecimal: the hex string of 25·10^18 yields exactly
25, while a bare decimal digit string is reinterpreted as hex digits (the
decimal spelling of 25·10^18 yields 174727559866176872906752/10^18, not 25);
the inputs 0, '0', '0x0' and an absent value yield exactly 0. -/
theorem c9_conversion :
    weiToTics (.str "0x15af1d78b58c40000") = 25 ∧
    weiToTics (.str "25000000000000000000") =
      (174727559866176872906752 : ℚ) / 10 ^ 18 ∧
    (174727559866176872906752 : ℚ) / 10 ^ 18 ≠ 25 ∧
    weiToTics (.num 0) = 0 ∧
    weiToTics .undef = 0 ∧
    weiToTics (.str "0") = 0 ∧
    weiToTics (.str "0x0") = 0 := by
  refine ⟨?_, ?_, by norm_num, rfl, rfl, rfl, rfl⟩
  · show ((25000000000000000000 : ℕ) : ℚ) / 10 ^ 18 = 25
    norm_num
  · show ((174727559866176872906752 : ℕ) : ℚ) / 10 ^ 18 = _
    norm_num

/-! Claim C10. -/

/-- C10 (confirmed): weiToTics is total and never throws.  Every input is
mapped to a rational number by construction (the embedding returns a plain
value, with the catch block modelled by Option.getD), and whenever the
conversion inside the try block fails — non-numeric strings, malformed hex,
an object whose toString itself throws — the result is 0. -/
theorem c10_weiToTics_total (w : WeiInput) (h : weiToTicsAux w = none) :
    weiToTics w = 0 := by
  unfold weiToTics
  split
  · rfl
  · rw [h]
    rfl

theorem c10_weiToTics_total_witness :
    weiToTicsAux (.obj none) = none ∧ weiToTics (.obj none) = 0 ∧
    weiToTicsAux (.str "hello") = none ∧ weiToTics (.str "hello") = 0 :=
  ⟨rfl, c10_weiToTics_total (.obj none) rfl, rfl,
    c10_weiToTics_total (.str "hello") rfl⟩

/-! Claim C7. -/

/-- C7 (confirmed): for a transaction with a truthy non-zero value field, a
transfer whose converted amount is strictly below CEX_THRESHOLD (the
configured minimum, 20) is discarded — no transfer event and hence no alert
— while an amount at or above the threshold yields exactly one recorded
transfer carrying the lower-cased addresses and the converted amount. -/
theorem c7_threshold_gate (tx : Tx) (price : ℚ)
    (hv : weiFalsy tx.value = false) (h0x : tx.value ≠ .str "0x0")
    (h0 : tx.value ≠ .str "0") :
    (weiToTics tx.value < CEX_THRESHOLD →
      detectedTransfers tx = [] ∧ processTransaction tx price = []) ∧
    (CEX_THRESHOLD ≤ weiToTics tx.value →
      detectedTransfers tx =
        [{ fromAddr := lowerOrEmpty tx.fromAddr, toAddr := lowerOrEmpty tx.toAddr
           amount := weiToTics tx.value, kind := "native" }]) := by
  constructor
  · intro hlt
    have hdet : detectedTransfers tx = [] := by
      simp only [detectedTransfers]
      split
      · split
        · next hge => exact absurd hge (not_le.mpr hlt)
        · rfl
      · rfl
    refine ⟨hdet, ?_⟩
    unfold processTransaction
    cases tx.hash with
    | none => rfl
    | some hh =>
      show (if hh = "" then []
        else (detectedTransfers tx).flatMap fun t => classifyTransfer t price hh) = []
      rw [hdet]
      split <;> rfl
  · intro hge
    simp only [detectedTransfers]
    rw [if_pos ⟨by simp [hv], h0x, h0⟩, if_pos hge]

theorem c7_threshold_gate_witness :
    CEX_THRESHOLD = 20 ∧
    weiToTics c7TxBelow.value = 19999999/1000000 ∧
    detectedTransfers c7TxBelow = [] ∧
    processTransaction c7TxBelow 1 = [] ∧
    weiToTics c7TxAt.value = 20 ∧
    detectedTransfers c7TxAt =
      [{ fromAddr := "0xaaa", toAddr := "0xbbb", amount := 20, kind := "native" }] := by
  have hbelow : weiToTics c7TxBelow.value = 19999999/1000000 := by
    show ((19999999000000000000 : ℕ) : ℚ) / 10 ^ 18 = 19999999/1000000
    norm_num
  have hat : weiToTics c7TxAt.value = 20 := by
    show ((20000000000000000000 : ℕ) : ℚ) / 10 ^ 18 = 20
    norm_num
  have hlt : weiToTics c7TxBelow.value < CEX_THRESHOLD := by
    rw [hbelow]
    norm_num [CEX_THRESHOLD]
  have hge : CEX_THRESHOLD ≤ weiToTics c7TxAt.value := by
    rw [hat]
    norm_num [CEX_THRESHOLD]
  refine ⟨rfl, hbelow, ?_, ?_, hat, ?_⟩
  · exact ((c7_threshold_gate c7TxBelow 1 (by decide) (by decide) (by decide)).1 hlt).1
  · exact ((c7_threshold_gate c7TxBelow 1 (by decide) (by decide) (by decide)).1 hlt).2
  · have key := (c7_threshold_gate c7TxAt 1 (by decide) (by decide) (by decide)).2 hge
    rw [key, hat]
    decide

/-! Claim C8. -/

/-- C8 (confirmed): whale and CEX classification are independent.  For a
retained transfer with amount at or above WHALE_THRESHOLD, a transfer
between addresses not in the CEX table produces exactly one whale alert,
while a transfer into a configured CEX deposit address produces both the
CEX deposit alert and the whale alert (in that sending order). -/
theorem c8_whale_cex_independent (t : Transfer) (price : ℚ) (h : String)
    (hw : WHALE_THRESHOLD ≤ t.amount) :
    ((∀ p ∈ CEX_ADDRESSES, t.toAddr ≠ jsToLower p.2) →
     (∀ p ∈ CEX_ADDRESSES, t.fromAddr ≠ jsToLower p.2) →
      classifyTransfer t price h =
        [.whale t.fromAddr t.toAddr t.amount (t.amount * price) h]) ∧
    (∀ name addr, (name, addr) ∈ CEX_ADDRESSES → t.toAddr = jsToLower addr →
      ∃ nm, classifyTransfer t price h =
        [.cex "deposit" nm t.amount (t.amount * price) h,
         .whale t.fromAddr t.toAddr t.amount (t.amount * price) h]) := by
  constructor
  · intro h1 h2
    have hto : CEX_ADDRESSES.find? (fun p => t.toAddr == jsToLower p.2) = none :=
      List.find?_eq_none.mpr fun x hx => by simpa using h1 x hx
    have hfrom : CEX_ADDRESSES.find? (fun p => t.fromAddr == jsToLower p.2) = none :=
      List.find?_eq_none.mpr fun x hx => by simpa using h2 x hx
    simp only [classifyTransfer, hto, hfrom]
    rw [if_pos hw]
    rfl
  · intro name addr hmem hto
    have hsome : (CEX_ADDRESSES.find? (fun p => t.toAddr == jsToLower p.2)).isSome := by
      rw [List.find?_isSome]
      exact ⟨(name, addr), hmem, by simpa using hto⟩
    obtain ⟨pr, hpr⟩ := Option.isSome_iff_exists.mp hsome
    refine ⟨jsToUpper pr.1, ?_⟩
    simp only [classifyTransfer, hpr]
    rw [if_pos hw]
    rfl

theorem c8_whale_cex_independent_witness :
    WHALE_THRESHOLD = 100 ∧
    classifyTransfer c8PlainTransfer 1 "0xh" =
      [.whale "0xaa" "0xbb" 150 150 "0xh"] ∧
    classifyTransfer c8CexTransfer 1 "0xh" =
      [.cex "deposit" "LBANK" 150 150 "0xh",
       .whale "0xaa" "0xb9885e76b4fee07791377f4099d6ed4f3e49c4d0" 150 150 "0xh"] := by
  refine ⟨rfl, ?_, ?_⟩
  · have key := (c8_whale_cex_independent c8PlainTransfer 1 "0xh" (by decide)).1
      (by decide) (by decide)
    simpa [c8PlainTransfer] using key
  · have hfind : CEX_ADDRESSES.find?
        (fun p => c8CexTransfer.toAddr == jsToLower p.2) =
        some ("lbank", "0xB9885e76B4FeE07791377f4099d6eD4F3E49c4d0") := by decide
    have hup : jsToUpper "lbank" = "LBANK" := by decide
    have key := (c8_whale_cex_independent c8CexTransfer 1 "0xh" (by decide)).2
      "lbank" "0xB9885e76B4FeE07791377f4099d6eD4F3E49c4d0" (by decide) (by decide)
    obtain ⟨nm, hnm⟩ := key
    rw [hnm]
    have hnm' : nm = "LBANK" := by
      have := hnm
      simp only [classifyTransfer, hfind] at this
      rw [if_pos (by norm_num [WHALE_THRESHOLD, c8CexTransfer])] at this
      have hcex := List.head_eq_of_cons_eq this
      rw [hup] at hcex
      exact (Alert.cex.inj hcex.symm).2.1
    rw [hnm']
    simp [c8CexTransfer]

end TICS
